import Mathlib

/-
  Verification development for the ai-debates debate orchestration service.

  The Python source is shallowly embedded: Python strings are lists of
  characters, backend HTTP interactions are modelled by an explicit outcome
  value supplied to each operation, and Python exceptions are values of an
  error type threaded through Except.
-/

namespace AIDebates

/-- Python strings are modelled as lists of characters. -/
abbrev PyStr := List Char

/-- The apostrophe character, used inside several message strings. -/
def apos : Char := Char.ofNat 39

/-- The newline character. -/
def nlChar : Char := Char.ofNat 10

/-- Python whitespace as recognised by str.strip (space, tab, newline,
carriage return, form feed, vertical tab). -/
def isSpace (c : Char) : Bool :=
  c = Char.ofNat 32 || c = Char.ofNat 9 || c = Char.ofNat 10 ||
  c = Char.ofNat 13 || c = Char.ofNat 12 || c = Char.ofNat 11

/-- Remove trailing whitespace (the second half of Python str.strip). -/
def dropTrail (l : PyStr) : PyStr := (l.reverse.dropWhile isSpace).reverse

/-- Python str.strip(): remove leading and trailing whitespace. -/
def pyStrip (l : PyStr) : PyStr := dropTrail (l.dropWhile isSpace)

/-- Python str.upper() (ASCII case mapping suffices for this code base). -/
def pyUpper (l : PyStr) : PyStr := l.map Char.toUpper

/-- Python str.lower(). -/
def pyLower (l : PyStr) : PyStr := l.map Char.toLower

/-- hasPre s p: the pattern p is a leading piece of s
(Python s.startswith(p)). -/
def hasPre : PyStr → PyStr → Bool
  | _, [] => true
  | [], _ :: _ => false
  | c :: s, d :: p => if c = d then hasPre s p else false

/-- occursIn p s: the pattern p occurs somewhere inside s
(Python membership test p in s). -/
def occursIn (p : PyStr) : PyStr → Bool
  | [] => hasPre [] p
  | c :: rest => hasPre (c :: rest) p || occursIn p rest

/-- Python str.split(sep) for a one-character separator. -/
def pySplit (sep : Char) : PyStr → List PyStr
  | [] => [[]]
  | c :: rest =>
    if c = sep then [] :: pySplit sep rest
    else (c :: (pySplit sep rest).headD []) :: (pySplit sep rest).tail

/-- Fuel-driven worker for replaceAll; the fuel starts at the length of the
subject string, and one unit is spent per examined position. -/
def replaceAllGo (p r : PyStr) : Nat → PyStr → PyStr
  | _, [] => []
  | 0, s => s
  | Nat.succ fuel, c :: rest =>
    if p ≠ [] ∧ hasPre (c :: rest) p then
      r ++ replaceAllGo p r fuel (List.drop (p.length - 1) rest)
    else c :: replaceAllGo p r fuel rest

/-- Python s.replace(p, r): replace every non-overlapping occurrence of p,
scanning left to right (this code base only calls it with non-empty p). -/
def replaceAll (p r s : PyStr) : PyStr := replaceAllGo p r s.length s

/-- Concatenate lines, terminating each with a newline (the repeated
accumulation pattern of debate_model.generate_response). -/
def joinNl : List PyStr → PyStr
  | [] => []
  | l :: rest => l ++ nlChar :: joinNl rest

/-- Python newline.join(lines): newline between lines, none trailing. -/
def joinSep : List PyStr → PyStr
  | [] => []
  | [l] => l
  | l :: rest => l ++ nlChar :: joinSep rest

/-- Python l[-n:]: the last min(n, len) elements. -/
def lastN (n : Nat) (l : List α) : List α := l.drop (l.length - n)

/-- Decimal rendering of a natural number, as Python str(n). -/
def natStr (n : Nat) : PyStr := (Nat.repr n).toList

/-- Equality on Except results is decidable componentwise; used to evaluate
the model on concrete inputs. -/
instance exceptDecEq {ε α : Type} [DecidableEq ε] [DecidableEq α] :
    DecidableEq (Except ε α) := fun x y =>
  match x, y with
  | .ok a, .ok b =>
    if h : a = b then isTrue (by rw [h])
    else isFalse (fun hh => by cases hh; exact h rfl)
  | .error a, .error b =>
    if h : a = b then isTrue (by rw [h])
    else isFalse (fun hh => by cases hh; exact h rfl)
  | .ok _, .error _ => isFalse (fun hh => by cases hh)
  | .error _, .ok _ => isFalse (fun hh => by cases hh)

/-! ## Error and backend model -/

/-- Python exception values raised or propagated by the code under study.
unexpectedWrapped models the Unexpected entry of the client failure
taxonomy: some other exception wrapped with its original cause. -/
inductive PyError where
  | valueError (msg : PyStr)
  | connectionError (msg : PyStr)
  | timeoutError (msg : PyStr)
  | keyError (key : PyStr)
  | typeError (msg : PyStr)
  | httpError (code : Nat)
  | requestsConnError
  | otherError (msg : PyStr)
  | unexpectedWrapped (cause : PyError)
  deriving DecidableEq

/-- Python str(e) on an exception value: the message text used when an
exception is interpolated into a wrapping message. -/
def errMsg : PyError → PyStr
  | .valueError m => m
  | .connectionError m => m
  | .timeoutError m => m
  | .keyError k => apos :: k ++ [apos]
  | .typeError m => m
  | .httpError code => (("HTTP error ").toList) ++ natStr code
  | .requestsConnError => ("Connection error").toList
  | .otherError m => m
  | .unexpectedWrapped e => errMsg e

/-- A parsed JSON body returned by the inference backend. Only the
optional response text field is ever consulted by the code. -/
structure ApiDict where
  response : Option PyStr
  deriving DecidableEq

/-- The payload of an HTTP status reply: either unparseable JSON or a
parsed dictionary. -/
inductive JsonBody where
  | malformed
  | parsed (d : ApiDict)
  deriving DecidableEq

/-- One backend interaction as seen by requests.post: connection failure,
timeout, an HTTP reply with a status code and body, or some other
exception escaping the transport layer. -/
inductive HttpOutcome where
  | connError
  | timedOut
  | status (code : Nat) (body : JsonBody)
  | otherExc (e : PyError)
  deriving DecidableEq

/-- Modelled from the spec: the InferenceClient request path, shared by all
four personas (the model files embedding it are absent from src/). Per
spec sections 4.1 and 6, each invocation makes one outbound call and maps
every failure into the client taxonomy: a transport/connection failure to
Unreachable (ConnectionError), exceeding the timeout to TimedOut
(TimeoutError), an unparseable payload to MalformedResponse (ValueError),
and a non-2xx HTTP status or any other exception to Unexpected, wrapped
with its original cause. The prompt does not influence the modelled
outcome. -/
def make_api_request (_prompt : PyStr) (o : HttpOutcome) : Except PyError ApiDict :=
  match o with
  | .connError => .error (.connectionError (("AI service is unavailable").toList))
  | .timedOut => .error (.timeoutError (("Request took too long to process").toList))
  | .status code body =>
    if 400 ≤ code then .error (.unexpectedWrapped (.httpError code))
    else
      match body with
      | .malformed => .error (.valueError (("Invalid response from AI service").toList))
      | .parsed d => .ok d
  | .otherExc e => .error (.unexpectedWrapped e)

/-- The handle_errors decorator in routes.py: requests-level ConnectionError
becomes a 503, every other exception becomes a generic 500. -/
def handle_errors : PyError → Nat × PyStr
  | .requestsConnError =>
    (503, ("AI service is currently unavailable. Please ensure Ollama is running.").toList)
  | _ => (500, ("An unexpected error occurred. Please try again.").toList)

/-- The result dictionary of FilterModel.filter_topic. -/
structure FilterResult where
  is_appropriate : Bool
  reason : PyStr
  deriving DecidableEq

/-- The classification prompt of filter_topic (instruction text abbreviated:
no behaviour in the model depends on prompt contents). -/
def filterPrompt (topic : PyStr) : PyStr :=
  (("Analyze the following debate topic and determine if it is appropriate: ").toList)
    ++ topic

/-- FilterModel.filter_topic: raises ValueError on a blank topic, otherwise
asks the backend for a verdict; the verdict is the presence of the
substring true in the stripped, lower-cased response text, and any
exception from the request or field access is caught and converted to the
fail-closed result. -/
def filter_topic (topic : PyStr) (o : HttpOutcome) : Except PyError FilterResult :=
  if pyStrip topic = [] then .error (.valueError (("Empty topic provided").toList))
  else
    match make_api_request (filterPrompt topic) o with
    | .error _ =>
      .ok { is_appropriate := false
            reason := ("Unable to verify topic appropriateness").toList }
    | .ok d =>
      match d.response with
      | none =>
        -- KeyError from response-field access, caught by the same handler
        .ok { is_appropriate := false
              reason := ("Unable to verify topic appropriateness").toList }
      | some raw =>
        let result := pyLower (pyStrip raw)
        let isApp := occursIn (("true").toList) result
        let reason :=
          pyStrip (replaceAll (("false").toList) []
                    (replaceAll (("true").toList) [] result))
        .ok { is_appropriate := isApp
              reason := if reason = [] then ("Topic analyzed for appropriateness").toList
                        else reason }

/-! ## PromptModel -/

/-- The primary stance-generation prompt (instruction text abbreviated). -/
def stancePrompt (topic : PyStr) : PyStr :=
  (("You are helping set up a debate about: ").toList) ++ topic

/-- The simplified retry prompt (instruction text abbreviated). -/
def retryPrompt (topic : PyStr) : PyStr :=
  (("Topic: ").toList) ++ topic

/-- One iteration of the parsing loop in generate_stances: re-strip the
line (the loop body strips again although the lines are pre-stripped),
then try the labelled-prefix matches in order, latest match overwriting
the accumulator. -/
def stanceStep (acc : PyStr × PyStr) (rawLine : PyStr) : PyStr × PyStr :=
  if hasPre (pyUpper (pyStrip rawLine)) (("FOR:").toList) then
    (pyStrip (List.drop 4 (pyStrip rawLine)), acc.2)
  else if hasPre (pyUpper (pyStrip rawLine)) (("AGAINST:").toList) then
    (acc.1, pyStrip (List.drop 8 (pyStrip rawLine)))
  else if hasPre (pyUpper (pyStrip rawLine)) (("FOR ").toList) then
    (pyStrip (List.drop 4 (pyStrip rawLine)), acc.2)
  else if hasPre (pyUpper (pyStrip rawLine)) (("AGAINST ").toList) then
    (acc.1, pyStrip (List.drop 8 (pyStrip rawLine)))
  else acc

/-- The line list of generate_stances: split the response at newlines,
strip each line, keep the non-empty ones. -/
def parseLines (result : PyStr) : List PyStr :=
  ((pySplit nlChar result).map pyStrip).filter (fun l => !l.isEmpty)

/-- The fallback of generate_stances: when neither statement was assigned
and at least two lines exist, take the first two lines. -/
def stanceFallback (lines : List PyStr) (p : PyStr × PyStr) : PyStr × PyStr :=
  if p.1 = [] ∧ p.2 = [] ∧ 2 ≤ lines.length then
    (pyStrip (lines.headD []), pyStrip ((lines.drop 1).headD []))
  else p

/-- The cleanup of generate_stances: scrub residual label tokens from both
statements and strip them. -/
def stanceClean (p : PyStr × PyStr) : PyStr × PyStr :=
  (pyStrip (replaceAll (("FOR").toList) [] (replaceAll (("FOR:").toList) [] p.1)),
   pyStrip (replaceAll (("AGAINST").toList) [] (replaceAll (("AGAINST:").toList) [] p.2)))

/-- The parsing phase of generate_stances: split into non-empty stripped
lines, run the prefix-matching loop, fall back to the first two lines when
neither statement was found, then scrub residual label tokens. -/
def parseStances (result : PyStr) : PyStr × PyStr :=
  stanceClean
    (stanceFallback (parseLines result)
      ((parseLines result).foldl stanceStep ([], [])))

/-- The wrapping message of generate_stances on any caught exception. -/
def stanceFailMsg (e : PyError) : PyStr :=
  (("Failed to generate debate stances: ").toList) ++ errMsg e

/-- The message raised when the retry fails for any reason (its internal
could-not-generate ValueError is itself caught and rewrapped). -/
def retryFailMsg : PyStr :=
  ("Failed to generate debate stances even with retry").toList

/-- PromptModel._retry_generate_stances: one further backend call with the
simplified prompt; returns the first two non-empty stripped lines of the
response verbatim, and converts every failure into the single retry
ValueError. -/
def retry_generate_stances (topic : PyStr) (o : HttpOutcome) : Except PyError (PyStr × PyStr) :=
  match make_api_request (retryPrompt topic) o with
  | .error _ => .error (.valueError retryFailMsg)
  | .ok d =>
    match d.response with
    | none => .error (.valueError retryFailMsg)
    | some r =>
      match parseLines r with
      | l1 :: l2 :: _ => .ok (l1, l2)
      | _ => .error (.valueError retryFailMsg)

/-- PromptModel.generate_stances: validates the topic, makes the primary
call, parses, and on stances shorter than five characters performs the
single retry. The second component counts backend calls actually made.
Any exception inside the try block, including a retry failure, is wrapped
into a ValueError carrying the original message. -/
def generate_stances (topic : PyStr) (o1 o2 : HttpOutcome) :
    Except PyError (PyStr × PyStr) × Nat :=
  if pyStrip topic = [] then (.error (.valueError (("Empty topic provided").toList)), 0)
  else
    match make_api_request (stancePrompt topic) o1 with
    | .error e => (.error (.valueError (stanceFailMsg e)), 1)
    | .ok d =>
      match d.response with
      | none =>
        (.error (.valueError (stanceFailMsg (.keyError (("response").toList)))), 1)
      | some result =>
        let p := parseStances result
        if p.1.length < 5 ∨ p.2.length < 5 then
          match retry_generate_stances topic o2 with
          | .ok pair => (.ok pair, 2)
          | .error e => (.error (.valueError (stanceFailMsg e)), 2)
        else (.ok p, 1)

/-! ## History entries (duck-typed in the source) -/

/-- A debate-history item as the Python code receives it: either a
dictionary with side and text keys, or a legacy raw string. -/
inductive HistEntry where
  | dictE (side text : PyStr)
  | rawE (s : PyStr)
  deriving DecidableEq

/-- The side label of an entry, when it is a structured entry. -/
def entrySide : HistEntry → Option PyStr
  | .dictE side _ => some side
  | .rawE _ => none

/-- The side labels of a history. -/
def entrySides (l : List HistEntry) : List (Option PyStr) := l.map entrySide

/-- Adjacent elements all differ. -/
def alternates : List (Option PyStr) → Bool
  | [] => true
  | [_] => true
  | a :: b :: rest => decide (a ≠ b) && alternates (b :: rest)

/-! ## ModeratorModel -/

/-- The decision dictionary of should_intervene. -/
structure InterventionDecision where
  needs_intervention : Bool
  reason : PyStr
  deriving DecidableEq

/-- The moderator rendering of one history item: structured entries become
SIDE: text with the side upper-cased, anything else is stringified. -/
def moderatorEntryStr : HistEntry → PyStr
  | .dictE side text => pyUpper side ++ ((": ").toList) ++ text
  | .rawE s => s

/-- The moderator context convention: render the last n entries and join
them with newlines. -/
def moderatorFormat (n : Nat) (history : List HistEntry) : PyStr :=
  joinSep ((lastN n history).map moderatorEntryStr)

/-- Modelled from the spec: the exact lower-case reason string for an
empty history, as quoted in spec sections 4.5 and 8 (moderator_model.py
is absent from src/). -/
def debateNotStarted : PyStr :=
  (("debate hasn").toList) ++ apos :: (("t started yet").toList)

/-- The intervention-check prompt (instruction text abbreviated). -/
def intervenePrompt (topic : PyStr) (history : List HistEntry) : PyStr :=
  (("Analyze this debate and determine if moderator intervention is needed: ").toList)
    ++ topic ++ nlChar :: moderatorFormat 3 history

/-- Modelled from the spec: ModeratorModel.should_intervene
(moderator_model.py is absent from src/). Per spec section 4.5, an empty
history short-circuits to needs_intervention false with the spec-quoted
empty-history reason, without calling the backend; otherwise one call is
made, needs_intervention is the presence of the substring true in the
lower-cased response, and on any backend failure it fails soft with the
spec-quoted intervention-check error reason rather than propagating. The
second component counts backend calls. -/
def should_intervene (topic : PyStr) (debate_history : List HistEntry)
    (o : HttpOutcome) : InterventionDecision × Nat :=
  if debate_history = [] then
    ({ needs_intervention := false, reason := debateNotStarted }, 0)
  else
    match make_api_request (intervenePrompt topic debate_history) o with
    | .error _ =>
      ({ needs_intervention := false
         reason := ("error in intervention check").toList }, 1)
    | .ok d =>
      match d.response with
      | none =>
        -- a missing response field fails the check like any other failure
        ({ needs_intervention := false
           reason := ("error in intervention check").toList }, 1)
      | some r =>
        let result := pyLower r
        ({ needs_intervention := occursIn (("true").toList) result
           reason := result }, 1)

/-- The summary prompt (instruction text abbreviated; uses the last five
entries). -/
def summaryPrompt (topic : PyStr) (history : List HistEntry) : PyStr :=
  (("Provide a brief, impartial summary of the following debate: ").toList)
    ++ topic ++ nlChar :: moderatorFormat 5 history

/-- ModeratorModel.generate_summary: requires a non-empty history, then one
backend call whose response text is returned; failures propagate. -/
def generate_summary (topic : PyStr) (history : List HistEntry)
    (o : HttpOutcome) : Except PyError PyStr :=
  if history = [] then
    .error (.valueError (("No debate history provided for summary").toList))
  else
    match make_api_request (summaryPrompt topic history) o with
    | .error e => .error e
    | .ok d =>
      match d.response with
      | none => .error (.keyError (("response").toList))
      | some r => .ok r

/-- The evaluation prompt (instruction text abbreviated; uses the last
three entries). -/
def evaluatePrompt (topic current_argument : PyStr) (history : List HistEntry) : PyStr :=
  (("As a debate moderator, evaluate the following argument: ").toList)
    ++ topic ++ nlChar :: current_argument ++ nlChar :: moderatorFormat 3 history

/-- ModeratorModel.evaluate_response: requires a non-empty argument, then
one backend call whose parsed payload is returned untouched; failures
propagate. -/
def evaluate_response (topic current_argument : PyStr) (history : List HistEntry)
    (o : HttpOutcome) : Except PyError ApiDict :=
  if current_argument = [] then
    .error (.valueError (("No argument provided for evaluation").toList))
  else
    match make_api_request (evaluatePrompt topic current_argument history) o with
    | .error e => .error e
    | .ok d => .ok d

/-! ## DebateModel -/

/-- The rendering of one context item at position i in the truncated slice:
structured entries become SIDE: text, raw items become Point N: rawText. -/
def renderEntry (i : Nat) : HistEntry → PyStr
  | .dictE side text => pyUpper side ++ ((": ").toList) ++ text
  | .rawE s => (("Point ").toList) ++ natStr (i + 1) ++ ((": ").toList) ++ s

/-- Render a list of context items starting at position i. -/
def renderFrom (i : Nat) : List HistEntry → List PyStr
  | [] => []
  | e :: rest => renderEntry i e :: renderFrom (i + 1) rest

/-- The rendered lines of the context-formatting step in generate_response:
the last three entries of the history, each rendered per renderEntry. -/
def formatLines (context : List HistEntry) : List PyStr :=
  renderFrom 0 (lastN 3 context)

/-- The context string built by generate_response: each rendered line
followed by a newline. -/
def format_context (context : List HistEntry) : PyStr :=
  joinNl (formatLines context)

/-- The message raised for topics or stances rejected by generate_response
stance validation. -/
def stanceErrMsg : PyStr :=
  (("Stance must be either ").toList) ++ apos :: (("for").toList)
    ++ apos :: ((" or ").toList) ++ apos :: (("against").toList) ++ [apos]

/-- The debate-turn prompt (instruction text abbreviated; embeds the
formatted context). -/
def debatePrompt (topic : PyStr) (context : List HistEntry) (stance : PyStr) : PyStr :=
  (("You are participating in a casual debate about: ").toList) ++ topic
    ++ nlChar :: pyUpper stance ++ nlChar :: format_context context

/-- DebateModel.generate_response: validates topic and stance, makes one
backend call, and requires a non-empty response text; the full parsed
payload is returned and failures propagate. -/
def generate_response (topic : PyStr) (context : List HistEntry) (stance : PyStr)
    (o : HttpOutcome) : Except PyError ApiDict :=
  if topic = [] ∨ stance = [] then
    .error (.valueError (("Topic and stance are required").toList))
  else if stance ≠ (("for").toList) ∧ stance ≠ (("against").toList) then
    .error (.valueError stanceErrMsg)
  else
    match make_api_request (debatePrompt topic context stance) o with
    | .error e => .error e
    | .ok d =>
      match d.response with
      | none => .error (.valueError (("Empty response from model").toList))
      | some r =>
        if r = [] then .error (.valueError (("Empty response from model").toList))
        else .ok d

/-! ## Routes: debate_round -/

/-- The projection the route applies before every moderator call: the text
field of each entry. A raw string entry makes the subscript expression
raise TypeError. -/
def projectTexts : List HistEntry → Except PyError (List PyStr)
  | [] => .ok []
  | HistEntry.dictE _ t :: rest =>
    match projectTexts rest with
    | .ok ts => .ok (t :: ts)
    | .error e => .error e
  | HistEntry.rawE _ :: _ =>
    .error (.typeError (("string indices must be integers").toList))

/-- The next_side expression of debate_round. -/
def next_side (current_side : PyStr) : PyStr :=
  if current_side = (("against").toList) then ("for").toList else ("against").toList

/-- The JSON request body of the debate_round route: the topic and
current_side keys may be absent, debate_history defaults to empty. -/
structure RoundRequest where
  topicOpt : Option PyStr
  sideOpt : Option PyStr
  historyOpt : Option (List HistEntry)
  deriving DecidableEq

/-- The observable outcome of one debate_round call: a 400 validation
reply, a moderator-intervention reply, a success reply, or a propagated
exception handled by handle_errors. -/
inductive RoundOutcome where
  | badRequest (msg : PyStr)
  | intervention (argument message summary : PyStr) (nextSide : PyStr)
  | success (argument : PyStr) (evaluation : ApiDict) (nextSide : PyStr)
      (debate_history : List HistEntry)
  | serverError (e : PyError)
  deriving DecidableEq

/-- The debate_round route: validate the request, generate the argument for
the current side, append it to the history, run the moderator intervention
check on the text projection of the updated history, and return either the
intervention reply (argument, reason, fresh summary, next side) or the
evaluated reply (argument, evaluation, next side, updated history). -/
def debate_round (req : RoundRequest) (oGen oInt oSum oEval : HttpOutcome) : RoundOutcome :=
  match req.topicOpt, req.sideOpt with
  | some topic, some current_side =>
    if current_side ≠ (("for").toList) ∧ current_side ≠ (("against").toList) then
      .badRequest (("Invalid debate side specified").toList)
    else
      match generate_response topic (req.historyOpt.getD []) current_side oGen with
      | .error e => .serverError e
      | .ok d =>
        match d.response with
        | none => .serverError (.keyError (("response").toList))
        | some current_argument =>
          match projectTexts (req.historyOpt.getD []
              ++ [HistEntry.dictE current_side current_argument]) with
          | .error e => .serverError e
          | .ok texts =>
            if (should_intervene topic (texts.map HistEntry.rawE) oInt).1.needs_intervention then
              match generate_summary topic (texts.map HistEntry.rawE) oSum with
              | .error e => .serverError e
              | .ok summary =>
                .intervention current_argument
                  (should_intervene topic (texts.map HistEntry.rawE) oInt).1.reason
                  summary (next_side current_side)
            else
              match evaluate_response topic current_argument
                      (texts.map HistEntry.rawE) oEval with
              | .error e => .serverError e
              | .ok ev =>
                .success current_argument ev (next_side current_side)
                  (req.historyOpt.getD [] ++ [HistEntry.dictE current_side current_argument])
  | _, _ => .badRequest (("Missing required debate information").toList)

/-! ## String-model lemmas -/

/-- dropWhile never lengthens a list. -/
theorem dropWhile_len_le (p : Char → Bool) (l : PyStr) :
    (l.dropWhile p).length ≤ l.length := by
  induction l with
  | nil => simp [List.dropWhile]
  | cons c t ih =>
    by_cases hp : p c
    · simp only [List.dropWhile, hp]
      exact Nat.le_succ_of_le ih
    · simp [List.dropWhile, hp]

/-- A dropWhile result of full length is the whole list. -/
theorem dropWhile_eq_self_of_len (p : Char → Bool) (l : PyStr)
    (h : (l.dropWhile p).length = l.length) : l.dropWhile p = l := by
  induction l with
  | nil => simp [List.dropWhile]
  | cons c t _ =>
    by_cases hp : p c
    · exfalso
      simp only [List.dropWhile, hp] at h
      have := dropWhile_len_le p t
      simp [List.length_cons] at h
      omega
    · simp [List.dropWhile, hp]

/-- If dropWhile keeps a cons intact, the head fails the predicate. -/
theorem dropWhile_cons_eq_self (p : Char → Bool) (c : Char) (t : PyStr)
    (h : List.dropWhile p (c :: t) = c :: t) : p c = false := by
  by_cases hp : p c
  · exfalso
    simp only [List.dropWhile, hp] at h
    have h1 := dropWhile_len_le p t
    have h2 := congrArg List.length h
    simp [List.length_cons] at h2
    omega
  · exact Bool.eq_false_iff.mpr hp

/-- dropTrail never lengthens a list. -/
theorem dropTrail_len_le (l : PyStr) : (dropTrail l).length ≤ l.length := by
  unfold dropTrail
  calc ((l.reverse.dropWhile isSpace).reverse).length
      = (l.reverse.dropWhile isSpace).length := List.length_reverse _
    _ ≤ l.reverse.length := dropWhile_len_le _ _
    _ = l.length := List.length_reverse _

/-- A string fixed by pyStrip is fixed by each half of the strip. -/
theorem pyStrip_parts (x : PyStr) (h : pyStrip x = x) :
    x.dropWhile isSpace = x ∧ dropTrail x = x := by
  have hlen1 : (dropTrail (x.dropWhile isSpace)).length ≤ (x.dropWhile isSpace).length :=
    dropTrail_len_le _
  have hlen2 : (x.dropWhile isSpace).length ≤ x.length := dropWhile_len_le _ _
  have hx : (pyStrip x).length = x.length := by rw [h]
  unfold pyStrip at hx
  have hfull : (x.dropWhile isSpace).length = x.length := by omega
  have hdw : x.dropWhile isSpace = x := dropWhile_eq_self_of_len _ _ hfull
  refine ⟨hdw, ?_⟩
  have := h
  unfold pyStrip at this
  rw [hdw] at this
  exact this

/-- Appending in front of a string whose tail is already clean leaves
dropTrail unchanged. -/
theorem dropTrail_append_self (a x : PyStr) (h : dropTrail x = x) (hx : x ≠ []) :
    dropTrail (a ++ x) = a ++ x := by
  have hrev : x.reverse.dropWhile isSpace = x.reverse := by
    have := congrArg List.reverse h
    unfold dropTrail at this
    rwa [List.reverse_reverse] at this
  obtain ⟨c, t, hct⟩ : ∃ c t, x.reverse = c :: t := by
    cases hxr : x.reverse with
    | nil => exact absurd (List.reverse_eq_nil_iff.mp hxr) hx
    | cons c t => exact ⟨c, t, rfl⟩
  have hc : isSpace c = false := by
    apply dropWhile_cons_eq_self isSpace c t
    rw [← hct]
    exact hrev
  unfold dropTrail
  rw [List.reverse_append, hct, List.cons_append]
  rw [List.dropWhile_cons_of_neg (by simp [hc])]
  rw [← List.cons_append, ← hct, List.reverse_append, List.reverse_reverse,
    List.reverse_reverse]

/-- pyStrip leaves a literal-fronted string alone when the literal starts
with a non-space character and the symbolic tail is already stripped. -/
theorem pyStrip_lit_append (d : Char) (lit x : PyStr)
    (hd : isSpace d = false) (h : pyStrip x = x) (hx : x ≠ []) :
    pyStrip ((d :: lit) ++ x) = (d :: lit) ++ x := by
  obtain ⟨_, hdt⟩ := pyStrip_parts x h
  unfold pyStrip
  rw [List.cons_append, List.dropWhile_cons_of_neg (by simp [hd]), ← List.cons_append]
  exact dropTrail_append_self _ _ hdt hx

/-- Stripping a single leading space. -/
theorem pyStrip_space_cons (x : PyStr) (h : pyStrip x = x) :
    pyStrip ((Char.ofNat 32) :: x) = x := by
  obtain ⟨hdw, hdt⟩ := pyStrip_parts x h
  unfold pyStrip
  rw [List.dropWhile_cons_of_pos (by simp [isSpace]), hdw]
  exact hdt

/-- Splitting a string that does not contain the separator. -/
theorem pySplit_no_sep (sep : Char) (b : PyStr) (h : sep ∉ b) :
    pySplit sep b = [b] := by
  induction b with
  | nil => rfl
  | cons c rest ih =>
    have hc : ¬c = sep := fun hh => h (hh ▸ List.mem_cons_self c rest)
    have hrest : sep ∉ rest := fun hh => h (List.mem_cons_of_mem c hh)
    conv_lhs => rw [pySplit]
    rw [if_neg hc, ih hrest]
    simp

/-- Splitting at the first separator occurrence. -/
theorem pySplit_append_sep (sep : Char) (a b : PyStr) (h : sep ∉ a) :
    pySplit sep (a ++ sep :: b) = a :: pySplit sep b := by
  induction a with
  | nil => simp [pySplit]
  | cons c rest ih =>
    have hc : ¬c = sep := fun hh => h (hh ▸ List.mem_cons_self c rest)
    have hrest : sep ∉ rest := fun hh => h (List.mem_cons_of_mem c hh)
    rw [List.cons_append]
    conv_lhs => rw [pySplit]
    rw [if_neg hc, ih hrest]
    simp

/-- A pattern that occurs nowhere is never replaced (worker form). -/
theorem replaceAllGo_no_occur (p r : PyStr) (n : Nat) (s : PyStr)
    (h : occursIn p s = false) : replaceAllGo p r n s = s := by
  induction n generalizing s with
  | zero => cases s <;> rfl
  | succ n ih =>
    cases s with
    | nil => rfl
    | cons c rest =>
      unfold occursIn at h
      rw [Bool.or_eq_false_iff] at h
      unfold replaceAllGo
      rw [if_neg (fun hand => by rw [hand.2] at h; exact absurd h.1 (by simp))]
      rw [ih rest h.2]

/-- A pattern that occurs nowhere is never replaced. -/
theorem replaceAll_no_occur (p r s : PyStr) (h : occursIn p s = false) :
    replaceAll p r s = s := replaceAllGo_no_occur p r s.length s h

/-- A string always starts with its own leading piece. -/
theorem hasPre_append (p s : PyStr) : hasPre (p ++ s) p = true := by
  induction p with
  | nil => cases s <;> rfl
  | cons c rest ih =>
    rw [List.cons_append]
    unfold hasPre
    rw [if_pos rfl]
    exact ih

/-! ## List and rendering lemmas -/

/-- The last-n slice has exactly min(len, n) elements. -/
theorem lastN_length {α : Type} (n : Nat) (l : List α) :
    (lastN n l).length = min l.length n := by
  unfold lastN
  rw [List.length_drop]
  omega

/-- The last-n slice is a trailing piece of the list. -/
theorem lastN_trailing {α : Type} (n : Nat) (l : List α) :
    ∃ t, t ++ lastN n l = l :=
  ⟨l.take (l.length - n), List.take_append_drop _ _⟩

/-- renderFrom preserves length. -/
theorem renderFrom_length (i : Nat) (l : List HistEntry) :
    (renderFrom i l).length = l.length := by
  induction l generalizing i with
  | nil => rfl
  | cons e rest ih => simp [renderFrom, ih]

/-- renderFrom maps position j to the rendering of the j-th entry. -/
theorem renderFrom_get (l : List HistEntry) (i j : Nat) (e : HistEntry)
    (h : l[j]? = some e) : (renderFrom i l)[j]? = some (renderEntry (i + j) e) := by
  induction l generalizing i j with
  | nil => simp at h
  | cons a rest ih =>
    cases j with
    | zero =>
      simp at h
      simp [renderFrom, h]
    | succ j =>
      simp at h
      have := ih (i + 1) j h
      simpa [renderFrom, Nat.add_assoc, Nat.add_comm 1 j] using this

/-- Appending one element whose value differs from the current last element
preserves the all-adjacent-differ property. -/
theorem alternates_append_last (l : List (Option PyStr)) (x : Option PyStr)
    (h1 : alternates l = true) (h2 : l.getLast? ≠ some x) :
    alternates (l ++ [x]) = true := by
  induction l with
  | nil => rfl
  | cons a t ih =>
    cases t with
    | nil =>
      have hax : a ≠ x := fun hh => h2 (by simp [hh])
      simp [alternates, hax]
    | cons b rest =>
      have hstep : alternates (a :: b :: rest) =
          (decide (a ≠ b) && alternates (b :: rest)) := rfl
      rw [hstep, Bool.and_eq_true] at h1
      have hlast : (b :: rest).getLast? ≠ some x := by
        rwa [List.getLast?_cons_cons] at h2
      have := ih h1.2 hlast
      simp only [List.cons_append] at this ⊢
      have hstep2 : alternates (a :: b :: (rest ++ [x])) =
          (decide (a ≠ b) && alternates (b :: (rest ++ [x]))) := rfl
      rw [hstep2, h1.1, this]
      rfl

/-- Projecting a history of structured entries keeps exactly the text
fields, dropping the side labels. -/
theorem projectTexts_map_dict (pairs : List (PyStr × PyStr)) :
    projectTexts (pairs.map (fun q => HistEntry.dictE q.1 q.2)) =
      .ok (pairs.map Prod.snd) := by
  induction pairs with
  | nil => rfl
  | cons q rest ih => simp [projectTexts, ih]

/-- Projecting any history containing a raw string raises TypeError. -/
theorem projectTexts_of_raw (l : List HistEntry) (s : PyStr)
    (h : HistEntry.rawE s ∈ l) :
    projectTexts l = .error (.typeError (("string indices must be integers").toList)) := by
  induction l with
  | nil => simp at h
  | cons e rest ih =>
    cases e with
    | rawE t => rfl
    | dictE side text =>
      have hr : HistEntry.rawE s ∈ rest := by
        rcases List.mem_cons.mp h with h1 | h1
        · exact absurd h1 (by simp)
        · exact h1
      simp [projectTexts, ih hr]

/-! ## Stance-parsing lemmas -/

/-- A string of length at least five is not empty. -/
theorem ne_nil_of_five (x : PyStr) (h : 5 ≤ x.length) : x ≠ [] := by
  intro hx
  rw [hx] at h
  simp at h

/-- The parsing loop on a well-formed FOR line assigns the for statement. -/
theorem stanceStep_for_line (x : PyStr) (hx1 : pyStrip x = x) (hx : x ≠ [])
    (acc : PyStr × PyStr) :
    stanceStep acc ((("FOR: ").toList) ++ x) = (x, acc.2) := by
  have hstrip : pyStrip ((("FOR: ").toList) ++ x) = (("FOR: ").toList) ++ x := by
    rw [(rfl : (("FOR: ").toList) = ('F') :: (("OR: ").toList))]
    exact pyStrip_lit_append _ _ x (by decide) hx1 hx
  have hup : pyUpper ((("FOR: ").toList) ++ x) = (("FOR: ").toList) ++ pyUpper x := by
    unfold pyUpper
    rw [List.map_append]
    congr 1
  have hpre : hasPre (pyUpper ((("FOR: ").toList) ++ x)) (("FOR:").toList) = true := by
    rw [hup, (by decide : (("FOR: ").toList) = (("FOR:").toList) ++ ((" ").toList)),
      List.append_assoc]
    exact hasPre_append _ _
  have hdrop : List.drop 4 ((("FOR: ").toList) ++ x) = (Char.ofNat 32) :: x := rfl
  unfold stanceStep
  rw [hstrip, if_pos hpre, hdrop, pyStrip_space_cons x hx1]

/-- The parsing loop on a well-formed AGAINST line assigns the against
statement. -/
theorem stanceStep_against_line (y : PyStr) (hy1 : pyStrip y = y) (hy : y ≠ [])
    (acc : PyStr × PyStr) :
    stanceStep acc ((("AGAINST: ").toList) ++ y) = (acc.1, y) := by
  have hstrip : pyStrip ((("AGAINST: ").toList) ++ y) = (("AGAINST: ").toList) ++ y := by
    rw [(rfl : (("AGAINST: ").toList) = ('A') :: (("GAINST: ").toList))]
    exact pyStrip_lit_append _ _ y (by decide) hy1 hy
  have hup : pyUpper ((("AGAINST: ").toList) ++ y) = (("AGAINST: ").toList) ++ pyUpper y := by
    unfold pyUpper
    rw [List.map_append]
    congr 1
  have hpre0 : hasPre (pyUpper ((("AGAINST: ").toList) ++ y)) (("FOR:").toList) = false := by
    rw [hup]
    rfl
  have hpre : hasPre (pyUpper ((("AGAINST: ").toList) ++ y)) (("AGAINST:").toList) = true := by
    rw [hup, (by decide : (("AGAINST: ").toList) = (("AGAINST:").toList) ++ ((" ").toList)),
      List.append_assoc]
    exact hasPre_append _ _
  have hdrop : List.drop 8 ((("AGAINST: ").toList) ++ y) = (Char.ofNat 32) :: y := rfl
  unfold stanceStep
  rw [hstrip, if_neg (by rw [hpre0]; exact Bool.false_ne_true), if_pos hpre, hdrop,
    pyStrip_space_cons y hy1]

/-- The line list of a well-formed two-line labelled response. -/
theorem parseLines_wellformed (x y : PyStr)
    (hx1 : pyStrip x = x) (hy1 : pyStrip y = y) (hx : x ≠ []) (hy : y ≠ [])
    (hx3 : nlChar ∉ x) (hy3 : nlChar ∉ y) :
    parseLines ((("FOR: ").toList) ++ x ++ nlChar :: (("AGAINST: ").toList) ++ y) =
      [(("FOR: ").toList) ++ x, (("AGAINST: ").toList) ++ y] := by
  have hm1 : nlChar ∉ (("FOR: ").toList) ++ x := fun hmem =>
    (List.mem_append.mp hmem).elim (fun hh => absurd hh (by decide)) hx3
  have hm2 : nlChar ∉ (("AGAINST: ").toList) ++ y := fun hmem =>
    (List.mem_append.mp hmem).elim (fun hh => absurd hh (by decide)) hy3
  have hr : (("FOR: ").toList) ++ x ++ nlChar :: (("AGAINST: ").toList) ++ y =
      ((("FOR: ").toList) ++ x) ++ (nlChar :: ((("AGAINST: ").toList) ++ y)) := by
    simp [List.append_assoc]
  have hsplit : pySplit nlChar ((("FOR: ").toList) ++ x ++ nlChar :: (("AGAINST: ").toList) ++ y)
      = [(("FOR: ").toList) ++ x, (("AGAINST: ").toList) ++ y] := by
    rw [hr, pySplit_append_sep nlChar _ _ hm1, pySplit_no_sep nlChar _ hm2]
  have hs1 : pyStrip ((("FOR: ").toList) ++ x) = (("FOR: ").toList) ++ x := by
    rw [(rfl : (("FOR: ").toList) = ('F') :: (("OR: ").toList))]
    exact pyStrip_lit_append _ _ x (by decide) hx1 hx
  have hs2 : pyStrip ((("AGAINST: ").toList) ++ y) = (("AGAINST: ").toList) ++ y := by
    rw [(rfl : (("AGAINST: ").toList) = ('A') :: (("GAINST: ").toList))]
    exact pyStrip_lit_append _ _ y (by decide) hy1 hy
  unfold parseLines
  rw [hsplit, List.map_cons, List.map_cons, List.map_nil, hs1, hs2]
  simp [List.filter]

/-- The full parse of a well-formed two-line labelled response, when the
statements carry no residual label tokens. -/
theorem parseStances_wellformed (x y : PyStr)
    (hx1 : pyStrip x = x) (hy1 : pyStrip y = y) (hx : x ≠ []) (hy : y ≠ [])
    (hx3 : nlChar ∉ x) (hy3 : nlChar ∉ y)
    (hx4 : occursIn ((("FOR:").toList)) x = false)
    (hx5 : occursIn ((("FOR").toList)) x = false)
    (hy4 : occursIn ((("AGAINST:").toList)) y = false)
    (hy5 : occursIn ((("AGAINST").toList)) y = false) :
    parseStances ((("FOR: ").toList) ++ x ++ nlChar :: (("AGAINST: ").toList) ++ y) =
      (x, y) := by
  have hlines := parseLines_wellformed x y hx1 hy1 hx hy hx3 hy3
  have hfold : [(("FOR: ").toList) ++ x, (("AGAINST: ").toList) ++ y].foldl
      stanceStep ([], []) = (x, y) := by
    rw [List.foldl_cons, stanceStep_for_line x hx1 hx,
      List.foldl_cons, stanceStep_against_line y hy1 hy, List.foldl_nil]
  have hfb : stanceFallback [(("FOR: ").toList) ++ x, (("AGAINST: ").toList) ++ y] (x, y)
      = (x, y) := by
    unfold stanceFallback
    rw [if_neg (fun hcond => hx hcond.1)]
  have hclean : stanceClean (x, y) = (x, y) := by
    show (pyStrip (replaceAll (("FOR").toList) [] (replaceAll (("FOR:").toList) [] x)),
      pyStrip (replaceAll (("AGAINST").toList) [] (replaceAll (("AGAINST:").toList) [] y)))
      = (x, y)
    rw [replaceAll_no_occur _ _ _ hx4, replaceAll_no_occur _ _ _ hx5, hx1,
      replaceAll_no_occur _ _ _ hy4, replaceAll_no_occur _ _ _ hy5, hy1]
  unfold parseStances
  rw [hlines, hfold, hfb, hclean]

/-! ## debate_round structure lemmas -/

/-- The side opposite to a given side, as the specification words it. -/
def oppositeSide (s : PyStr) : PyStr :=
  if s = (("for").toList) then ("against").toList else ("for").toList

/-- On the two valid sides, the next_side expression of debate_round
computes the opposite side. -/
theorem next_side_eq_opposite (cs : PyStr)
    (h : cs = (("for").toList) ∨ cs = (("against").toList)) :
    next_side cs = oppositeSide cs := by
  rcases h with h | h <;> subst h <;> decide

/-- Every intervention or success reply of debate_round carries
next_side current_side, and every success reply carries the input history
with the new entry appended. -/
theorem debate_round_shape (req : RoundRequest) (oG oI oS oE : HttpOutcome)
    (topic cs : PyStr) (ht : req.topicOpt = some topic) (hc : req.sideOpt = some cs) :
    (∀ a m s ns, debate_round req oG oI oS oE = .intervention a m s ns →
      ns = next_side cs) ∧
    (∀ a ev ns h, debate_round req oG oI oS oE = .success a ev ns h →
      ns = next_side cs ∧ h = req.historyOpt.getD [] ++ [HistEntry.dictE cs a]) := by
  constructor
  · intro a m s ns h
    simp only [debate_round, ht, hc] at h
    repeat' split at h
    all_goals simp at h
    all_goals obtain ⟨h1, h2, h3, h4⟩ := h
    all_goals exact h4.symm
  · intro a ev ns hh h
    simp only [debate_round, ht, hc] at h
    repeat' split at h
    all_goals simp at h
    all_goals obtain ⟨h1, h2, h3, h4⟩ := h
    all_goals exact ⟨h3.symm, by rw [← h4, h1]⟩

/-! ## Claim C1 -/

/-- A backend interaction that fails as filter_topic experiences it: the
request raises, or the parsed body lacks the response field. -/
def backendFailure (o : HttpOutcome) : Bool :=
  match make_api_request [] o with
  | .error _ => true
  | .ok d => d.response.isNone

/-- Claim C1, amended: for every topic that is non-empty after stripping,
filter_topic propagates no backend failure; any failing interaction
(connection failure, timeout, malformed JSON, HTTP error status, missing
response field, or any other exception) yields the fail-closed result
with is_appropriate false and the generic reason. The amendment restricts
the claim from every non-empty topic to every non-blank topic: on a
whitespace-only topic filter_topic raises its own validation ValueError
before any backend call (see the counterexample). -/
theorem claim_C1 (topic : PyStr) (o : HttpOutcome)
    (htopic : pyStrip topic ≠ []) (hfail : backendFailure o = true) :
    filter_topic topic o =
      .ok { is_appropriate := false
            reason := ("Unable to verify topic appropriateness").toList } := by
  unfold filter_topic
  rw [if_neg htopic]
  unfold backendFailure at hfail
  have hpr : make_api_request (filterPrompt topic) o = make_api_request [] o := rfl
  rw [hpr]
  cases hreq : make_api_request [] o with
  | error e => rfl
  | ok d =>
    rw [hreq] at hfail
    dsimp only at hfail
    cases hresp : d.response with
    | none =>
      dsimp only
      rw [hresp]
    | some r =>
      rw [hresp] at hfail
      simp at hfail

/-- Witness for C1 at a concrete topic and a concrete connection failure. -/
theorem claim_C1_witness :
    filter_topic (("Should remote work be standard?").toList) HttpOutcome.connError =
      .ok { is_appropriate := false
            reason := ("Unable to verify topic appropriateness").toList } :=
  claim_C1 _ _ (by decide) (by decide)

/-- Counterexample to C1 as stated: the single-space topic is a non-empty
string, yet under a backend connection failure filter_topic does not
return the fail-closed result; it raises the empty-topic ValueError. -/
theorem claim_C1_counterexample :
    ((" ").toList ≠ ([] : PyStr)) ∧
    filter_topic ((" ").toList) HttpOutcome.connError =
      .error (.valueError (("Empty topic provided").toList)) :=
  ⟨by decide, by decide⟩

/-! ## Claim C5 -/

/-- Claim C8: on a parsed backend reply carrying a response text,
filter_topic's verdict is exactly the occurrence of the substring true in
the stripped lower-cased text, and should_intervene's verdict is exactly
the occurrence of the substring true in the lower-cased text; the
substring false plays no role, so both-present yields true and
neither-present yields false. -/
theorem claim_C8 (topic r : PyStr) (o : HttpOutcome) (d : ApiDict)
    (hist : List HistEntry) (htopic : pyStrip topic ≠ []) (hh : hist ≠ [])
    (hok : make_api_request [] o = .ok d) (hresp : d.response = some r) :
    (∃ res, filter_topic topic o = .ok res ∧
      res.is_appropriate = occursIn (("true").toList) (pyLower (pyStrip r))) ∧
    (should_intervene topic hist o).1.needs_intervention =
      occursIn (("true").toList) (pyLower r) := by
  constructor
  · unfold filter_topic
    rw [if_neg htopic]
    have hpr : make_api_request (filterPrompt topic) o = make_api_request [] o := rfl
    rw [hpr]
    simp only [hok, hresp]
    exact ⟨_, rfl, rfl⟩
  · unfold should_intervene
    rw [if_neg hh]
    have hpr : make_api_request (intervenePrompt topic hist) o =
        make_api_request [] o := rfl
    rw [hpr]
    simp only [hok, hresp]

/-- Witness for C8 on a response containing both the substring true and
the substring false: both verdicts come out true. -/
theorem claim_C8_witness :
    (∃ res, filter_topic (("t").toList)
        (.status 200 (.parsed { response := some (("true and false both!").toList) })) =
        .ok res ∧
      res.is_appropriate =
        occursIn (("true").toList)
          (pyLower (pyStrip (("true and false both!").toList)))) ∧
    (should_intervene (("t").toList) [HistEntry.rawE (("x").toList)]
        (.status 200 (.parsed { response := some (("true and false both!").toList) }))).1.needs_intervention =
      occursIn (("true").toList) (pyLower (("true and false both!").toList)) :=
  claim_C8 (("t").toList) (("true and false both!").toList)
    (.status 200 (.parsed { response := some (("true and false both!").toList) }))
    { response := some (("true and false both!").toList) }
    [HistEntry.rawE (("x").toList)] (by decide) (by decide) (by decide) (by decide)

/-! ## Claim C9 -/

/-- Claim C3: generate_stances never makes more than two backend calls;
when the primary call parses to a for or against statement shorter than
five characters, exactly the single retry runs (two calls total) and its
verdict is passed through — an ok pair verbatim, or the retry generation
error wrapped once more; and the retry itself returns the first two
non-empty stripped lines of its response, or the generation error when
fewer than two lines exist. -/
theorem claim_C3 (topic : PyStr) (o1 o2 : HttpOutcome) :
    (generate_stances topic o1 o2).2 ≤ 2 ∧
    (∀ d r, make_api_request [] o1 = .ok d → d.response = some r →
      ((parseStances r).1.length < 5 ∨ (parseStances r).2.length < 5) →
      pyStrip topic ≠ [] →
      (∀ pair, retry_generate_stances topic o2 = .ok pair →
        generate_stances topic o1 o2 = (.ok pair, 2)) ∧
      (∀ e, retry_generate_stances topic o2 = .error e →
        generate_stances topic o1 o2 = (.error (.valueError (stanceFailMsg e)), 2))) ∧
    (∀ d r, make_api_request [] o2 = .ok d → d.response = some r →
      (∀ l1 l2 rest, parseLines r = l1 :: l2 :: rest →
        retry_generate_stances topic o2 = .ok (l1, l2)) ∧
      ((parseLines r).length < 2 →
        retry_generate_stances topic o2 = .error (.valueError retryFailMsg))) := by
  refine ⟨?_, ?_, ?_⟩
  · unfold generate_stances
    repeat' split
    all_goals dsimp only
    all_goals try split
    all_goals simp
  · intro d r h1 h2 h3 h4
    have h1p : make_api_request (stancePrompt topic) o1 = .ok d := h1
    constructor
    · intro pair hre
      unfold generate_stances
      rw [if_neg h4]
      simp only [h1p, h2]
      rw [if_pos h3, hre]
    · intro e hre
      unfold generate_stances
      rw [if_neg h4]
      simp only [h1p, h2]
      rw [if_pos h3, hre]
  · intro d r h1 h2
    have h1p : make_api_request (retryPrompt topic) o2 = .ok d := h1
    constructor
    · intro l1 l2 rest hl
      unfold retry_generate_stances
      simp only [h1p, h2]
      rw [hl]
    · intro hlen
      unfold retry_generate_stances
      simp only [h1p, h2]
      cases hls : parseLines r with
      | nil => rfl
      | cons l1 t =>
        cases t with
        | nil => rfl
        | cons l2 t2 =>
          rw [hls] at hlen
          simp at hlen
          omega

/-- Witness for C3: a primary response whose stances are one character
long triggers exactly the single retry, which returns the first two lines
of the retry response; two backend calls in total. -/
theorem claim_C3_witness :
    (generate_stances (("t").toList)
      (.status 200 (.parsed { response := some (("FOR: a\nAGAINST: b").toList) }))
      (.status 200 (.parsed { response := some (("first line\nsecond line").toList) }))).2 ≤ 2 ∧
    generate_stances (("t").toList)
      (.status 200 (.parsed { response := some (("FOR: a\nAGAINST: b").toList) }))
      (.status 200 (.parsed { response := some (("first line\nsecond line").toList) })) =
      (.ok ((("first line").toList), (("second line").toList)), 2) :=
  ⟨(claim_C3 _ _ _).1,
   ((claim_C3 (("t").toList)
      (.status 200 (.parsed { response := some (("FOR: a\nAGAINST: b").toList) }))
      (.status 200 (.parsed { response := some (("first line\nsecond line").toList) }))).2.1
     { response := some (("FOR: a\nAGAINST: b").toList) }
     (("FOR: a\nAGAINST: b").toList) rfl rfl (by decide) (by decide)).1
     ((("first line").toList), (("second line").toList)) (by decide)⟩

/-! ## Claim C4 -/

/-- Claim C4: on the well-formed response FOR: X newline AGAINST: Y, with
statements that are stripped, at least five characters long, free of
newlines and free of residual label tokens, generate_stances returns
exactly the pair (X, Y) after one backend call, never touching the retry;
and the parse follows the stated algorithm on its other branches: a
response without labels falls back to the first two lines, the
case-insensitive no-colon fallback labels are recognised, and residual
label tokens are stripped from extracted statements. -/
theorem claim_C4 (topic x y : PyStr) (o1 o2 : HttpOutcome) (d : ApiDict)
    (htopic : pyStrip topic ≠ [])
    (hx1 : pyStrip x = x) (hy1 : pyStrip y = y)
    (hx2 : 5 ≤ x.length) (hy2 : 5 ≤ y.length)
    (hx3 : nlChar ∉ x) (hy3 : nlChar ∉ y)
    (hx4 : occursIn ((("FOR:").toList)) x = false)
    (hx5 : occursIn ((("FOR").toList)) x = false)
    (hy4 : occursIn ((("AGAINST:").toList)) y = false)
    (hy5 : occursIn ((("AGAINST").toList)) y = false)
    (hok : make_api_request [] o1 = .ok d)
    (hresp : d.response =
      some ((("FOR: ").toList) ++ x ++ nlChar :: (("AGAINST: ").toList) ++ y)) :
    parseStances ((("FOR: ").toList) ++ x ++ nlChar :: (("AGAINST: ").toList) ++ y) =
      (x, y) ∧
    generate_stances topic o1 o2 = (.ok (x, y), 1) ∧
    parseStances (("line one text\nline two text").toList) =
      ((("line one text").toList), (("line two text").toList)) ∧
    parseStances (("for stance one x\nagainst stance two y").toList) =
      ((("stance one x").toList), (("stance two y").toList)) ∧
    parseStances (("FOR: FOR: great idea\nAGAINST: AGAINST: bad idea").toList) =
      ((("great idea").toList), (("bad idea").toList)) := by
  have hx0 : x ≠ [] := ne_nil_of_five x hx2
  have hy0 : y ≠ [] := ne_nil_of_five y hy2
  have hparse := parseStances_wellformed x y hx1 hy1 hx0 hy0 hx3 hy3 hx4 hx5 hy4 hy5
  refine ⟨hparse, ?_, by decide, by decide, by decide⟩
  have h1p : make_api_request (stancePrompt topic) o1 = .ok d := hok
  unfold generate_stances
  rw [if_neg htopic]
  simp only [h1p, hresp]
  rw [hparse]
  have hlen : ¬((x, y).1.length < 5 ∨ (x, y).2.length < 5) := by
    intro hcon
    rcases hcon with h | h
    · have hx' : x.length < 5 := h
      omega
    · have hy' : y.length < 5 := h
      omega
  rw [if_neg hlen]

/-- Witness for C4 at concrete well-formed stances. -/
theorem claim_C4_witness :
    parseStances ((("FOR: ").toList) ++ (("Remote work is good.").toList) ++
        nlChar :: (("AGAINST: ").toList) ++ (("Office work is better.").toList)) =
      ((("Remote work is good.").toList), (("Office work is better.").toList)) ∧
    generate_stances (("t").toList)
      (.status 200 (.parsed (ApiDict.mk
        (some ((("FOR: ").toList) ++ (("Remote work is good.").toList) ++
          nlChar :: (("AGAINST: ").toList) ++ (("Office work is better.").toList))))))
      HttpOutcome.connError =
      (.ok ((("Remote work is good.").toList), (("Office work is better.").toList)), 1) := by
  have h := claim_C4 (("t").toList) (("Remote work is good.").toList)
    (("Office work is better.").toList)
    (.status 200 (.parsed (ApiDict.mk
      (some ((("FOR: ").toList) ++ (("Remote work is good.").toList) ++
        nlChar :: (("AGAINST: ").toList) ++ (("Office work is better.").toList))))))
    HttpOutcome.connError
    (ApiDict.mk
      (some ((("FOR: ").toList) ++ (("Remote work is good.").toList) ++
        nlChar :: (("AGAINST: ").toList) ++ (("Office work is better.").toList))))
    (by decide) (by decide) (by decide) (by decide) (by decide) (by decide)
    (by decide) (by decide) (by decide) (by decide) (by decide) rfl rfl
  exact ⟨h.1, h.2.1⟩

/-! ## Claim C2 -/

/-- Claim C2: whenever the request carries a current_side among for and
against, both reply branches of debate_round — the moderator-intervention
reply and the evaluated reply — carry the opposite side as next_side. -/
theorem claim_C2 (req : RoundRequest) (oG oI oS oE : HttpOutcome) (topic cs : PyStr)
    (ht : req.topicOpt = some topic) (hc : req.sideOpt = some cs)
    (hcs : cs = (("for").toList) ∨ cs = (("against").toList)) :
    (∀ a m s ns, debate_round req oG oI oS oE = .intervention a m s ns →
      ns = oppositeSide cs) ∧
    (∀ a ev ns h, debate_round req oG oI oS oE = .success a ev ns h →
      ns = oppositeSide cs) := by
  obtain ⟨h1, h2⟩ := debate_round_shape req oG oI oS oE topic cs ht hc
  have hop := next_side_eq_opposite cs hcs
  exact ⟨fun a m s ns hh => hop ▸ h1 a m s ns hh,
         fun a ev ns h hh => hop ▸ (h2 a ev ns h hh).1⟩

/-- Witness for C2 at a concrete evaluated round with current_side for. -/
theorem claim_C2_witness :
    (("against").toList : PyStr) = oppositeSide (("for").toList) :=
  (claim_C2
    (RoundRequest.mk (some (("topic").toList)) (some (("for").toList)) (some []))
    (.status 200 (.parsed (ApiDict.mk (some (("Arg text.").toList)))))
    (.status 200 (.parsed (ApiDict.mk (some (("no").toList)))))
    (.status 200 (.parsed (ApiDict.mk (some (("sum").toList)))))
    (.status 200 (.parsed (ApiDict.mk (some (("ok").toList)))))
    (("topic").toList) (("for").toList) rfl rfl (Or.inl rfl)).2
    (("Arg text.").toList) (ApiDict.mk (some (("ok").toList))) (("against").toList)
    [HistEntry.dictE (("for").toList) (("Arg text.").toList)] (by decide)

/-! ## Claim C6 -/

/-- Claim C6, amended: every successful debate_round reply returns exactly
the input history with the single new entry {side: current_side, text:
argument} appended at the end, pre-existing entries untouched; and the
sides of the returned history alternate provided the input history
alternates and its last side differs from current_side — the route itself
does not enforce alternation of the caller-supplied side, so without that
proviso successive entries can repeat a side (see the counterexample). -/
theorem claim_C6 (req : RoundRequest) (oG oI oS oE : HttpOutcome) (topic cs : PyStr)
    (ht : req.topicOpt = some topic) (hc : req.sideOpt = some cs) :
    ∀ a ev ns h, debate_round req oG oI oS oE = .success a ev ns h →
      h = req.historyOpt.getD [] ++ [HistEntry.dictE cs a] ∧
      (alternates (entrySides (req.historyOpt.getD [])) = true →
        (entrySides (req.historyOpt.getD [])).getLast? ≠ some (some cs) →
        alternates (entrySides h) = true) := by
  intro a ev ns h hh
  obtain ⟨-, happ⟩ := (debate_round_shape req oG oI oS oE topic cs ht hc).2 a ev ns h hh
  refine ⟨happ, ?_⟩
  intro halt hlast
  rw [happ]
  unfold entrySides
  rw [List.map_append]
  have hsing : List.map entrySide [HistEntry.dictE cs a] = [some cs] := rfl
  rw [hsing]
  exact alternates_append_last _ _ halt hlast

/-- Witness for C6 at a concrete round whose input history alternates and
ends on the other side. -/
theorem claim_C6_witness :
    alternates (entrySides
      [HistEntry.dictE (("against").toList) (("Prior point.").toList),
       HistEntry.dictE (("for").toList) (("Arg text.").toList)]) = true :=
  ((claim_C6
    (RoundRequest.mk (some (("topic").toList)) (some (("for").toList))
      (some [HistEntry.dictE (("against").toList) (("Prior point.").toList)]))
    (.status 200 (.parsed (ApiDict.mk (some (("Arg text.").toList)))))
    (.status 200 (.parsed (ApiDict.mk (some (("no").toList)))))
    (.status 200 (.parsed (ApiDict.mk (some (("sum").toList)))))
    (.status 200 (.parsed (ApiDict.mk (some (("ok").toList)))))
    (("topic").toList) (("for").toList) rfl rfl)
    (("Arg text.").toList) (ApiDict.mk (some (("ok").toList))) (("against").toList)
    [HistEntry.dictE (("against").toList) (("Prior point.").toList),
     HistEntry.dictE (("for").toList) (("Arg text.").toList)]
    (by decide)).2 (by decide) (by decide)

/-- Counterexample to C6 as stated: a successful round called with a
history already ending on the same side it plays produces a returned
history whose successive sides do not alternate. -/
theorem claim_C6_counterexample :
    debate_round
      (RoundRequest.mk (some (("topic").toList)) (some (("for").toList))
        (some [HistEntry.dictE (("for").toList) (("Earlier text here!").toList)]))
      (.status 200 (.parsed (ApiDict.mk (some (("Actually, a point.").toList)))))
      (.status 200 (.parsed (ApiDict.mk (some (("no").toList)))))
      (.status 200 (.parsed (ApiDict.mk (some (("sum").toList)))))
      (.status 200 (.parsed (ApiDict.mk (some (("ok").toList))))) =
      .success (("Actually, a point.").toList) (ApiDict.mk (some (("ok").toList)))
        (("against").toList)
        [HistEntry.dictE (("for").toList) (("Earlier text here!").toList),
         HistEntry.dictE (("for").toList) (("Actually, a point.").toList)] ∧
    alternates (entrySides
      [HistEntry.dictE (("for").toList) (("Earlier text here!").toList),
       HistEntry.dictE (("for").toList) (("Actually, a point.").toList)]) = false :=
  ⟨by decide, by decide⟩

/-! ## Claim C10 -/

/-- Claim C10: the orchestrator hands the moderator only the text
projection of the history, side labels dropped, so the moderator's
structured-entry branch is unreachable from the route; projecting a
history of structured entries yields exactly the text fields, while any
legacy raw-string entry makes the projection raise TypeError, which the
route surfaces as the generic 500 reply — even though generate_response
itself happily accepts such an entry, as its successful call here shows. -/
theorem claim_C10 (req : RoundRequest) (oG oI oS oE : HttpOutcome)
    (topic cs s arg : PyStr) (d : ApiDict)
    (ht : req.topicOpt = some topic) (hc : req.sideOpt = some cs)
    (hcs : cs = (("for").toList) ∨ cs = (("against").toList))
    (htopic : topic ≠ [])
    (hraw : HistEntry.rawE s ∈ req.historyOpt.getD [])
    (hok : make_api_request [] oG = .ok d) (hresp : d.response = some arg)
    (hne : arg ≠ []) :
    generate_response topic (req.historyOpt.getD []) cs oG = .ok d ∧
    debate_round req oG oI oS oE =
      .serverError (.typeError (("string indices must be integers").toList)) ∧
    handle_errors (.typeError (("string indices must be integers").toList)) =
      (500, ("An unexpected error occurred. Please try again.").toList) ∧
    (∀ pairs : List (PyStr × PyStr),
      projectTexts (pairs.map (fun q => HistEntry.dictE q.1 q.2)) =
        .ok (pairs.map Prod.snd)) := by
  have hcs1 : cs ≠ [] := by rcases hcs with h | h <;> (subst h; decide)
  have hvalid : ¬(cs ≠ (("for").toList) ∧ cs ≠ (("against").toList)) := fun hcon =>
    hcs.elim (fun h => hcon.1 h) (fun h => hcon.2 h)
  have hgen : generate_response topic (req.historyOpt.getD []) cs oG = .ok d := by
    unfold generate_response
    rw [if_neg (fun hcon => hcon.elim (fun h => htopic h) (fun h => hcs1 h))]
    rw [if_neg hvalid]
    have hokP : make_api_request (debatePrompt topic (req.historyOpt.getD []) cs) oG =
        .ok d := hok
    simp only [hokP, hresp]
    rw [if_neg hne]
  refine ⟨hgen, ?_, rfl, fun pairs => projectTexts_map_dict pairs⟩
  have hproj : projectTexts (req.historyOpt.getD [] ++ [HistEntry.dictE cs arg]) =
      .error (.typeError (("string indices must be integers").toList)) :=
    projectTexts_of_raw _ s (List.mem_append_left _ hraw)
  simp only [debate_round, ht, hc]
  rw [if_neg hvalid]
  simp only [hgen, hresp, hproj]

/-- Witness for C10 at a concrete request whose history holds one legacy
raw-string entry. -/
theorem claim_C10_witness :
    generate_response (("topic").toList) [HistEntry.rawE (("legacy").toList)]
      (("for").toList)
      (.status 200 (.parsed (ApiDict.mk (some (("Actually, a point.").toList))))) =
      .ok (ApiDict.mk (some (("Actually, a point.").toList))) ∧
    debate_round
      (RoundRequest.mk (some (("topic").toList)) (some (("for").toList))
        (some [HistEntry.rawE (("legacy").toList)]))
      (.status 200 (.parsed (ApiDict.mk (some (("Actually, a point.").toList)))))
      HttpOutcome.connError HttpOutcome.connError HttpOutcome.connError =
      .serverError (.typeError (("string indices must be integers").toList)) ∧
    handle_errors (.typeError (("string indices must be integers").toList)) =
      (500, ("An unexpected error occurred. Please try again.").toList) ∧
    (∀ pairs : List (PyStr × PyStr),
      projectTexts (pairs.map (fun q => HistEntry.dictE q.1 q.2)) =
        .ok (pairs.map Prod.snd)) :=
  claim_C10
    (RoundRequest.mk (some (("topic").toList)) (some (("for").toList))
      (some [HistEntry.rawE (("legacy").toList)]))
    (.status 200 (.parsed (ApiDict.mk (some (("Actually, a point.").toList)))))
    HttpOutcome.connError HttpOutcome.connError HttpOutcome.connError
    (("topic").toList) (("for").toList) (("legacy").toList)
    (("Actually, a point.").toList)
    (ApiDict.mk (some (("Actually, a point.").toList)))
    rfl rfl (Or.inl rfl) (by decide) (by decide) rfl rfl (by decide)

/-! ## Claim C7 -/

/-- Claim C7: the context-formatting step of generate_response renders
exactly min(len(history), 3) entries — the trailing slice of the history,
in chronological order — rendering a structured entry as the upper-cased
side, a colon and the text, and a raw entry as Point N followed by the raw
text, with the whole context string being those lines each terminated by a
newline. -/
theorem claim_C7 (context : List HistEntry) :
    (formatLines context).length = min context.length 3 ∧
    (∃ t, t ++ lastN 3 context = context) ∧
    format_context context = joinNl (formatLines context) ∧
    (∀ i e, (lastN 3 context)[i]? = some e →
      (formatLines context)[i]? = some (match e with
        | HistEntry.dictE side text => pyUpper side ++ ((": ").toList) ++ text
        | HistEntry.rawE s =>
          (("Point ").toList) ++ natStr (i + 1) ++ ((": ").toList) ++ s)) := by
  refine ⟨?_, lastN_trailing 3 context, rfl, ?_⟩
  · unfold formatLines
    rw [renderFrom_length]
    exact lastN_length 3 context
  · intro i e hi
    have hr := renderFrom_get (lastN 3 context) 0 i e hi
    rw [Nat.zero_add] at hr
    unfold formatLines
    rw [hr]
    cases e <;> rfl

/-- Witness for C7 on a four-entry history mixing structured and raw
entries: three lines are rendered, and the third renders the raw entry at
position three. -/
theorem claim_C7_witness :
    (formatLines
      [HistEntry.dictE (("for").toList) (("one").toList),
       HistEntry.rawE (("two").toList),
       HistEntry.dictE (("against").toList) (("three").toList),
       HistEntry.rawE (("four").toList)]).length = 3 ∧
    (formatLines
      [HistEntry.dictE (("for").toList) (("one").toList),
       HistEntry.rawE (("two").toList),
       HistEntry.dictE (("against").toList) (("three").toList),
       HistEntry.rawE (("four").toList)])[2]? = some (("Point 3: four").toList) :=
  ⟨(claim_C7 _).1,
   (claim_C7
     [HistEntry.dictE (("for").toList) (("one").toList),
      HistEntry.rawE (("two").toList),
      HistEntry.dictE (("against").toList) (("three").toList),
      HistEntry.rawE (("four").toList)]).2.2.2 2
     (HistEntry.rawE (("four").toList)) (by decide)⟩

end AIDebates
